import Mathlib

/-!
Shallow embedding of `Source/SceneManager.cpp` (CS-330 still-life scene
manager).  The data model and every operation the claims touch are
translated directly from the C++ source: registries become lists, the
member state of `SceneManager` becomes an explicit `SceneState` record,
and each shader-uniform write becomes an element of an output list of
`Uniform` events.  Float scalars of the source are embedded as `ℚ`
(scene data and material constants are decimal literals) except inside
the 4x4 transform matrices, which are over `ℝ` because the rotation
entries use `cos`/`sin` of the degree→radian conversion.
-/

namespace SceneMgr

/-- Two-component float vector (glm::vec2), embedded over `ℚ`. -/
abbrev Vec2 := ℚ × ℚ

/-- Three-component float vector (glm::vec3), embedded over `ℚ`. -/
abbrev Vec3 := ℚ × ℚ × ℚ

/-- Four-component float vector (glm::vec4), embedded over `ℚ`. -/
abbrev Vec4 := ℚ × ℚ × ℚ × ℚ

/-- Modelled from the spec: the texture registry entry.  The declaring
header `SceneManager.h` is not under `src/`; the spec gives
`TextureEntry: {tag: string, handle: opaque GPU id, slot: integer}` with
the slot being the array index in a 16-entry bank.  We keep the two
stored fields of the C++ `TEXTURE_INFO` (`ID`, `tag`); the slot is the
position of the entry in the registry list, exactly as in the source
where `m_textureIDs` is indexed by `m_loadedTextures`. -/
structure TextureEntry where
  ID : Nat
  tag : String

/-- The `OBJECT_MATERIAL` record of the source (fields in declaration
order of their uses in `SceneManager.cpp`). -/
structure OBJECT_MATERIAL where
  ambientColor : Vec3
  ambientStrength : ℚ
  diffuseColor : Vec3
  specularColor : Vec3
  shininess : ℚ
  tag : String

/-- State of the GL texture-name allocator: `glGenTextures` hands out
`nextTextureId` and bumps it; `glDeleteTextures` would append the freed
name to `deleted` (the source never calls it). -/
structure GLState where
  nextTextureId : Nat
  deleted : List Nat

/-- The member state of `SceneManager`: whether `m_pShaderManager` is
non-null, the texture registry (`m_textureIDs` together with
`m_loadedTextures`), the material list `m_objectMaterials`, and the GL
allocator state. -/
structure SceneState where
  shaderPresent : Bool
  textures : List TextureEntry
  materials : List OBJECT_MATERIAL
  gl : GLState

/-- One uniform write performed through `m_pShaderManager` (name and
payload of the `set*Value` call). -/
inductive Uniform where
  | mat4 (name : String) (m : Matrix (Fin 4) (Fin 4) ℝ)
  | vec4 (name : String) (v : Vec4)
  | vec3 (name : String) (v : Vec3)
  | vec2 (name : String) (v : Vec2)
  | intU (name : String) (i : Int)
  | floatU (name : String) (x : ℚ)
  | sampler2D (name : String) (slot : Int)

/-- The primitive mesh kinds drawn by `RenderScene` via `ShapeMeshes`. -/
inductive MeshKind where
  | box | plane | cylinder | cone | prism | pyramid4
  | sphere | taperedCylinder | torus

/-- `glGenTextures(1, &id)`: returns a fresh texture name and the
advanced allocator. -/
def glGenTexture (gl : GLState) : Nat × GLState :=
  (gl.nextTextureId, { gl with nextTextureId := gl.nextTextureId + 1 })

/-- `SceneManager::CreateGLTexture`.  The external `stbi_load` outcome
is the `image` argument: `none` for a failed read, `some c` for a
successful read with `c` color channels.  On a successful read the
source first calls `glGenTextures`, then checks the channel count
(3 or 4; anything else returns `false` without registering), and on
success appends the entry at index `m_loadedTextures` and increments
the counter — with no capacity check against the 16-entry slot bank. -/
def createGLTexture (image : Option Nat) (tag : String) (st : SceneState) :
    Bool × SceneState :=
  match image with
  | some colorChannels =>
    let g := glGenTexture st.gl
    if colorChannels = 3 ∨ colorChannels = 4 then
      (true, { st with gl := g.2,
                       textures := st.textures ++ [{ ID := g.1, tag := tag }] })
    else
      (false, { st with gl := g.2 })
  | none => (false, st)

/-- Loop body of `SceneManager::DestroyGLTextures`: for each registered
entry (index `i < m_loadedTextures`) the source executes
`glGenTextures(1, &m_textureIDs[i].ID)` — allocating a fresh name into
the entry instead of deleting the held one. -/
def destroyLoop : List TextureEntry → GLState → List TextureEntry × GLState
  | [], gl => ([], gl)
  | e :: rest, gl =>
    let g := glGenTexture gl
    let r := destroyLoop rest g.2
    ({ e with ID := g.1 } :: r.1, r.2)

/-- `SceneManager::DestroyGLTextures`: runs the loop above; note it
neither calls `glDeleteTextures` nor resets `m_loadedTextures`. -/
def destroyGLTextures (st : SceneState) : SceneState :=
  let r := destroyLoop st.textures st.gl
  { st with textures := r.1, gl := r.2 }

/-- Loop of `SceneManager::FindTextureSlot` carrying the running index:
`while (index < m_loadedTextures && !bFound)`, returning the index of
the first entry whose tag compares equal, else `-1`. -/
def findTextureSlotLoop (tag : String) : List TextureEntry → Nat → Int
  | [], _ => -1
  | e :: rest, index =>
    if e.tag = tag then (index : Int) else findTextureSlotLoop tag rest (index + 1)

/-- `SceneManager::FindTextureSlot`. -/
def findTextureSlot (tag : String) (st : SceneState) : Int :=
  findTextureSlotLoop tag st.textures 0

/-- Loop of `SceneManager::FindTextureID`: same scan, returning the
stored GL name of the first match, else `-1`. -/
def findTextureIDLoop (tag : String) : List TextureEntry → Int
  | [] => -1
  | e :: rest => if e.tag = tag then (e.ID : Int) else findTextureIDLoop tag rest

/-- `SceneManager::FindTextureID`. -/
def findTextureID (tag : String) (st : SceneState) : Int :=
  findTextureIDLoop tag st.textures

/-- The field copy performed inside `FindMaterial`'s match branch: the
source copies `ambientColor`, `ambientStrength`, `diffuseColor`,
`specularColor` and `shininess` into the output parameter — but not
`tag`. -/
def copyMaterialFields (material m : OBJECT_MATERIAL) : OBJECT_MATERIAL :=
  { material with
      ambientColor := m.ambientColor
      ambientStrength := m.ambientStrength
      diffuseColor := m.diffuseColor
      specularColor := m.specularColor
      shininess := m.shininess }

/-- Loop of `SceneManager::FindMaterial`: scans for the first tag match
and, when found, copies that entry's fields into the output parameter;
entries after the first match are never inspected. -/
def findMaterialLoop (tag : String) :
    List OBJECT_MATERIAL → OBJECT_MATERIAL → OBJECT_MATERIAL
  | [], material => material
  | m :: rest, material =>
    if m.tag = tag then copyMaterialFields material m
    else findMaterialLoop tag rest material

/-- `SceneManager::FindMaterial(tag, material&)`: returns `false` only
when `m_objectMaterials` is empty; otherwise it runs the scan loop and
then returns `true` unconditionally — whether or not any entry matched.
Result is (returned bool, final value of the output parameter). -/
def findMaterial (tag : String) (mats : List OBJECT_MATERIAL)
    (material : OBJECT_MATERIAL) : Bool × OBJECT_MATERIAL :=
  if mats.length = 0 then
    (false, material)
  else
    (true, findMaterialLoop tag mats material)

/-- `glm::radians`: degrees to radians. -/
noncomputable def radians (degrees : ℚ) : ℝ :=
  (degrees : ℝ) * Real.pi / 180

/-- `glm::scale(scaleXYZ)` as a homogeneous 4x4 matrix. -/
noncomputable def scaleM (s : Vec3) : Matrix (Fin 4) (Fin 4) ℝ :=
  !![(s.1 : ℝ), 0, 0, 0;
     0, (s.2.1 : ℝ), 0, 0;
     0, 0, (s.2.2 : ℝ), 0;
     0, 0, 0, 1]

/-- `glm::rotate(θ, vec3(1,0,0))`: rotation about the X axis. -/
noncomputable def rotationXM (θ : ℝ) : Matrix (Fin 4) (Fin 4) ℝ :=
  !![1, 0, 0, 0;
     0, Real.cos θ, -Real.sin θ, 0;
     0, Real.sin θ, Real.cos θ, 0;
     0, 0, 0, 1]

/-- `glm::rotate(θ, vec3(0,1,0))`: rotation about the Y axis. -/
noncomputable def rotationYM (θ : ℝ) : Matrix (Fin 4) (Fin 4) ℝ :=
  !![Real.cos θ, 0, Real.sin θ, 0;
     0, 1, 0, 0;
     -Real.sin θ, 0, Real.cos θ, 0;
     0, 0, 0, 1]

/-- `glm::rotate(θ, vec3(0,0,1))`: rotation about the Z axis. -/
noncomputable def rotationZM (θ : ℝ) : Matrix (Fin 4) (Fin 4) ℝ :=
  !![Real.cos θ, -Real.sin θ, 0, 0;
     Real.sin θ, Real.cos θ, 0, 0;
     0, 0, 1, 0;
     0, 0, 0, 1]

/-- `glm::translate(positionXYZ)` as a homogeneous 4x4 matrix. -/
noncomputable def translationM (p : Vec3) : Matrix (Fin 4) (Fin 4) ℝ :=
  !![1, 0, 0, (p.1 : ℝ);
     0, 1, 0, (p.2.1 : ℝ);
     0, 0, 1, (p.2.2 : ℝ);
     0, 0, 0, 1]

/-- The model matrix computed by `SceneManager::SetTransformations`:
`modelView = translation * rotationX * rotationY * rotationZ * scale`,
each rotation built from the degree argument converted by
`glm::radians`. -/
noncomputable def modelMatrix (scaleXYZ : Vec3)
    (XrotationDegrees YrotationDegrees ZrotationDegrees : ℚ)
    (positionXYZ : Vec3) : Matrix (Fin 4) (Fin 4) ℝ :=
  translationM positionXYZ *
    rotationXM (radians XrotationDegrees) *
    rotationYM (radians YrotationDegrees) *
    rotationZM (radians ZrotationDegrees) *
    scaleM scaleXYZ

/-- `SceneManager::SetTransformations`: computes the model matrix and,
only when `m_pShaderManager` is non-null, pushes it as the `model`
uniform.  Member state is untouched. -/
noncomputable def setTransformations (scaleXYZ : Vec3)
    (XrotationDegrees YrotationDegrees ZrotationDegrees : ℚ)
    (positionXYZ : Vec3) (st : SceneState) : SceneState × List Uniform :=
  let modelView := modelMatrix scaleXYZ
    XrotationDegrees YrotationDegrees ZrotationDegrees positionXYZ
  (st, if st.shaderPresent then [Uniform.mat4 "model" modelView] else [])

/-- `SceneManager::SetShaderColor`: under the null guard, pushes
`bUseTexture := false` (an int uniform, so 0) and the color. -/
def setShaderColor (redColorValue greenColorValue blueColorValue alphaValue : ℚ)
    (st : SceneState) : SceneState × List Uniform :=
  let currentColor : Vec4 :=
    (redColorValue, greenColorValue, blueColorValue, alphaValue)
  (st, if st.shaderPresent then
        [Uniform.intU "bUseTexture" 0,
         Uniform.vec4 "objectColor" currentColor]
      else [])

/-- `SceneManager::SetShaderTexture`: under the null guard, pushes
`bUseTexture := true` (int uniform 1) and then the slot resolved by
`FindTextureSlot` (the local starts at `-1`) as the sampler uniform. -/
def setShaderTexture (textureTag : String) (st : SceneState) :
    SceneState × List Uniform :=
  (st, if st.shaderPresent then
        [Uniform.intU "bUseTexture" 1,
         Uniform.sampler2D "objectTexture" (findTextureSlot textureTag st)]
      else [])

/-- `SceneManager::SetTextureUVScale`: under the null guard, pushes the
`UVscale` vec2 uniform. -/
def setTextureUVScale (u v : ℚ) (st : SceneState) : SceneState × List Uniform :=
  (st, if st.shaderPresent then [Uniform.vec2 "UVscale" (u, v)] else [])

/-- The local `OBJECT_MATERIAL material;` of `SetShaderMaterial` is
default-constructed and never initialized before `FindMaterial` writes
to it; the C++ contents are indeterminate.  We model the indeterminate
local by this fixed placeholder — no claim depends on its actual
field values, only on whether they get pushed. -/
def defaultMaterial : OBJECT_MATERIAL :=
  { ambientColor := (0, 0, 0)
    ambientStrength := 0
    diffuseColor := (0, 0, 0)
    specularColor := (0, 0, 0)
    shininess := 0
    tag := "" }

/-- `SceneManager::SetShaderMaterial`: if `m_objectMaterials` is
non-empty it calls `FindMaterial` into the uninitialized local and, when
that returns `true`, pushes the five material uniforms — with no null
check on `m_pShaderManager` anywhere on this path. -/
def setShaderMaterial (materialTag : String) (st : SceneState) :
    SceneState × List Uniform :=
  (st,
   if st.materials.length > 0 then
     let r := findMaterial materialTag st.materials defaultMaterial
     if r.1 = true then
       [Uniform.vec3 "material.ambientColor" r.2.ambientColor,
        Uniform.floatU "material.ambientStrength" r.2.ambientStrength,
        Uniform.vec3 "material.diffuseColor" r.2.diffuseColor,
        Uniform.vec3 "material.specularColor" r.2.specularColor,
        Uniform.floatU "material.shininess" r.2.shininess]
     else []
   else [])

/-- One draw block of `SceneManager::RenderScene`: set the transform,
optionally set an override color, set material and texture by tag, then
invoke the draw primitive.  Returns the threaded state, the uniforms
pushed, and the draw event (material tag, texture tag, mesh kind,
resulting model matrix). -/
structure RenderEvent where
  materialTag : String
  textureTag : String
  meshKind : MeshKind
  model : Matrix (Fin 4) (Fin 4) ℝ

/-- Executes one object's block of `RenderScene` in the source's fixed
order: `SetTransformations` → optional `SetShaderColor` →
`SetShaderMaterial` → `SetShaderTexture` → `Draw*Mesh`. -/
noncomputable def drawObject (st : SceneState) (scaleXYZ : Vec3)
    (xr yr zr : ℚ) (positionXYZ : Vec3) (color : Option Vec4)
    (materialTag textureTag : String) (mesh : MeshKind) :
    SceneState × List Uniform × RenderEvent :=
  let r1 := setTransformations scaleXYZ xr yr zr positionXYZ st
  let r2 := match color with
    | some c => setShaderColor c.1 c.2.1 c.2.2.1 c.2.2.2 r1.1
    | none => (r1.1, [])
  let r3 := setShaderMaterial materialTag r2.1
  let r4 := setShaderTexture textureTag r3.1
  (r4.1, r1.2 ++ r2.2 ++ r3.2 ++ r4.2,
   { materialTag := materialTag
     textureTag := textureTag
     meshKind := mesh
     model := modelMatrix scaleXYZ xr yr zr positionXYZ })

/-- `SceneManager::RenderScene`: the fixed ordered list of eleven draw
blocks with the literal scene data of the source (table plane, apple,
stem, container, lid sphere, lid torus, lid cylinder, box 1, box 2,
teacup, teacup handle).  Returns the final member state and the ordered
sequence of draw events. -/
noncomputable def renderScene (st : SceneState) :
    SceneState × List RenderEvent :=
  let d1 := drawObject st (20, 0, 10) 0 0 0 (0, 1.5, 0)
    (some (0.9, 0.8, 0.7, 1)) "polishWood" "table" MeshKind.plane
  let d2 := drawObject d1.1 (1, 1.1, 1) 0 0 (-1) (0, 2.5, 0)
    none "appleskin" "apple" MeshKind.sphere
  let d3 := drawObject d2.1 (0.1, 1, 0.1) 0 0 (-15) (0, 3, 0)
    none "wood" "stem" MeshKind.cylinder
  let d4 := drawObject d3.1 (1.5, 2, 1.5) 0 0 0 (2.5, 1.5, 0)
    none "polishClay" "ceramic" MeshKind.cylinder
  let d5 := drawObject d4.1 (0.5, 0.325, 0.5) 0 0 0 (2.5, 3.85, 0)
    none "polishClay" "ceramic" MeshKind.sphere
  let d6 := drawObject d5.1 (1.25, 1.25, 1.25) 90 0 0 (2.5, 3.45, 0)
    none "polishClay" "ceramic" MeshKind.torus
  let d7 := drawObject d6.1 (1.25, 0.25, 1.25) 0 0 0 (2.5, 3.45, 0)
    none "polishClay" "ceramic" MeshKind.cylinder
  let d8 := drawObject d7.1 (4, 3, 3) 0 (-30) 0 (2.5, 3, -3.5)
    (some (1, 1, 1, 1)) "wood" "cardboard" MeshKind.box
  let d9 := drawObject d8.1 (2.5, 3.25, 0.5) 0 25 0 (-0.35, 3.25, -1.5)
    (some (1, 1, 1, 1)) "wood" "cardboard" MeshKind.box
  let d10 := drawObject d9.1 (1.5, 1.5, 1.5) 180 0 0 (2.5, 6, -3.5)
    (some (1, 1, 1, 1)) "polishClay" "ceramic" MeshKind.taperedCylinder
  let d11 := drawObject d10.1 (0.5, 0.5, 0.5) 0 0 0 (3.5, 5.25, -3.5)
    (some (1, 1, 1, 1)) "polishClay" "ceramic" MeshKind.torus
  (d11.1, [d1.2.2, d2.2.2, d3.2.2, d4.2.2, d5.2.2, d6.2.2,
           d7.2.2, d8.2.2, d9.2.2, d10.2.2, d11.2.2])

/-- The `goldMaterial` defined in `DefineObjectMaterials`. -/
def goldMaterial : OBJECT_MATERIAL :=
  { ambientColor := (0.2, 0.2, 0.1)
    ambientStrength := 0.4
    diffuseColor := (0.3, 0.3, 0.2)
    specularColor := (0.6, 0.5, 0.4)
    shininess := 22
    tag := "gold" }

/-- The `woodMaterial` defined in `DefineObjectMaterials`. -/
def woodMaterial : OBJECT_MATERIAL :=
  { ambientColor := (0.2, 0.2, 0.2)
    ambientStrength := 0.2
    diffuseColor := (0.3, 0.3, 0.3)
    specularColor := (0.4, 0.4, 0.4)
    shininess := 0.3
    tag := "wood" }

/-- A second material with tag "wood" and a different shininess, for
the duplicate-tag shadowing scenario of the spec's testable property. -/
def woodMaterialDup : OBJECT_MATERIAL :=
  { woodMaterial with shininess := 99 }

/-- The manager state right after construction with a non-null shader
manager: empty registries, GL allocator starting at name 1. -/
def initialState : SceneState :=
  { shaderPresent := true
    textures := []
    materials := []
    gl := { nextTextureId := 1, deleted := [] } }

/-- A sequence of calls to `CreateGLTexture`, each with a successful
3-channel decode, registering the given tags in order (the shape of
`LoadSceneTextures`). -/
def loadSeq : List String → SceneState → SceneState
  | [], st => st
  | t :: rest, st => loadSeq rest (createGLTexture (some 3) t st).2

/-- Sixteen distinct tags: a load sequence that exactly fills the
16-entry slot bank. -/
def tags16 : List String :=
  ["t00", "t01", "t02", "t03", "t04", "t05", "t06", "t07",
   "t08", "t09", "t10", "t11", "t12", "t13", "t14", "t15"]

/-- Seventeen distinct tags: one more successful load than the slot
bank can hold. -/
def tags17 : List String := tags16 ++ ["t16"]

/-- A state whose material registry holds only the gold material (and a
live shader manager). -/
def stGold : SceneState :=
  { shaderPresent := true
    textures := []
    materials := [goldMaterial]
    gl := { nextTextureId := 1, deleted := [] } }

/-- A state holding two registered textures with GL names 1 and 2, the
allocator at 3. -/
def stTex : SceneState :=
  { shaderPresent := true
    textures := [{ ID := 1, tag := "apple" }, { ID := 2, tag := "stem" }]
    materials := []
    gl := { nextTextureId := 3, deleted := [] } }

/-- A state with a null shader manager (`m_pShaderManager == NULL`). -/
def stNoShader : SceneState :=
  { shaderPresent := false
    textures := []
    materials := []
    gl := { nextTextureId := 1, deleted := [] } }

/-! ### Helper lemmas -/

lemma radians_zero : radians 0 = 0 := by
  simp [radians]

lemma one_fin_four : (1 : Matrix (Fin 4) (Fin 4) ℝ) =
    !![1, 0, 0, 0; 0, 1, 0, 0; 0, 0, 1, 0; 0, 0, 0, 1] := by
  ext i j
  fin_cases i <;> fin_cases j <;> rfl

lemma rotationXM_zero : rotationXM 0 = 1 := by
  unfold rotationXM
  rw [Real.cos_zero, Real.sin_zero, neg_zero, one_fin_four]

lemma rotationYM_zero : rotationYM 0 = 1 := by
  unfold rotationYM
  rw [Real.cos_zero, Real.sin_zero, neg_zero, one_fin_four]

lemma rotationZM_zero : rotationZM 0 = 1 := by
  unfold rotationZM
  rw [Real.cos_zero, Real.sin_zero, neg_zero, one_fin_four]

lemma translationM_zero : translationM (0, 0, 0) = 1 := by
  have h : translationM (0, 0, 0) =
      !![1, 0, 0, ((0 : ℚ) : ℝ);
         0, 1, 0, ((0 : ℚ) : ℝ);
         0, 0, 1, ((0 : ℚ) : ℝ);
         0, 0, 0, 1] := rfl
  rw [h, Rat.cast_zero, one_fin_four]

lemma scaleM_one : scaleM (1, 1, 1) = 1 := by
  have h : scaleM (1, 1, 1) =
      !![((1 : ℚ) : ℝ), 0, 0, 0;
         0, ((1 : ℚ) : ℝ), 0, 0;
         0, 0, ((1 : ℚ) : ℝ), 0;
         0, 0, 0, 1] := rfl
  rw [h, Rat.cast_one, one_fin_four]

lemma findTextureSlotLoop_eq (tag : String) (l : List TextureEntry) :
    ∀ k : Nat,
      findTextureSlotLoop tag l k =
        if tag ∈ l.map TextureEntry.tag
        then ((k : Int) + ((l.map TextureEntry.tag).indexOf tag : Nat))
        else -1 := by
  induction l with
  | nil => intro k; simp [findTextureSlotLoop]
  | cons e rest ih =>
    intro k
    by_cases h : e.tag = tag
    · subst h
      simp [findTextureSlotLoop, List.indexOf_cons_self]
    · have hne : tag ≠ e.tag := fun hh => h hh.symm
      by_cases hm : tag ∈ rest.map TextureEntry.tag
      · simp only [findTextureSlotLoop, if_neg h, ih, List.map_cons,
          List.mem_cons, hm, or_true, if_pos, List.indexOf_cons_ne _ h,
          Nat.succ_eq_add_one]
        omega
      · have : ¬ tag ∈ TextureEntry.tag e :: rest.map TextureEntry.tag := by
          simp [hne, hm]
        simp [findTextureSlotLoop, h, hm, ih, this]

lemma loadSeq_textures_map : ∀ (tags : List String) (st : SceneState),
    ((loadSeq tags st).textures).map TextureEntry.tag =
      st.textures.map TextureEntry.tag ++ tags
  | [], st => by simp [loadSeq]
  | t :: rest, st => by
    simp [loadSeq, createGLTexture, glGenTexture,
      loadSeq_textures_map rest]

lemma findMaterialLoop_first (tag : String) :
    ∀ (pre : List OBJECT_MATERIAL) (m : OBJECT_MATERIAL)
      (rest : List OBJECT_MATERIAL) (material : OBJECT_MATERIAL),
      (∀ e ∈ pre, e.tag ≠ tag) → m.tag = tag →
      findMaterialLoop tag (pre ++ m :: rest) material =
        copyMaterialFields material m
  | [], m, rest, material => by
    intro _ hm
    simp [findMaterialLoop, hm]
  | e :: pre, m, rest, material => by
    intro hpre hm
    have he : e.tag ≠ tag := hpre e (by simp)
    simp only [List.cons_append, findMaterialLoop, if_neg he]
    exact findMaterialLoop_first tag pre m rest material
      (fun x hx => hpre x (by simp [hx])) hm

lemma findTextureSlot_loadSeq (tags : List String) (tag : String) :
    findTextureSlot tag (loadSeq tags initialState) =
      if tag ∈ tags then ((tags.indexOf tag : Nat) : Int) else -1 := by
  have hmap : ((loadSeq tags initialState).textures).map TextureEntry.tag = tags := by
    simpa [initialState] using loadSeq_textures_map tags initialState
  rw [findTextureSlot, findTextureSlotLoop_eq tag _ 0, hmap]
  simp

lemma loadSeq_textures_length (tags : List String) :
    (loadSeq tags initialState).textures.length = tags.length := by
  simpa [initialState] using
    congrArg List.length (loadSeq_textures_map tags initialState)

lemma createGLTexture_snd_textures (tag : String) (st : SceneState) :
    ((createGLTexture (some 3) tag st).2).textures =
      st.textures ++ [{ ID := st.gl.nextTextureId, tag := tag }] := rfl

/-! ### Claim theorems -/

/-- C1: the claim requires `FindMaterial(tag, out)` to return `false`
on a non-empty registry with no matching entry.  The source instead
returns `true` whenever the registry is non-empty: on the registry
`[goldMaterial]` and the tag `"nonexistent"` (which matches no entry)
the call reports found (`true`), although it does leave the output
parameter unpopulated. -/
theorem c1_findMaterial_miss_reports_found :
    findMaterial "nonexistent" stGold.materials defaultMaterial =
      (true, defaultMaterial) ∧
    (∀ e ∈ stGold.materials, e.tag ≠ "nonexistent") :=
  ⟨rfl, by decide⟩

/-- C2: the claim requires `SetShaderMaterial(tag)` to push no material
uniforms when the lookup does not find a matching entry.  Because
`FindMaterial` reports found on any non-empty registry, the source
pushes all five material uniforms populated from the uninitialized
local `OBJECT_MATERIAL` when the tag `"missing"` matches no entry of
the registry `[goldMaterial]`. -/
theorem c2_setShaderMaterial_pushes_on_miss :
    (setShaderMaterial "missing" stGold).2 =
      [Uniform.vec3 "material.ambientColor" defaultMaterial.ambientColor,
       Uniform.floatU "material.ambientStrength" defaultMaterial.ambientStrength,
       Uniform.vec3 "material.diffuseColor" defaultMaterial.diffuseColor,
       Uniform.vec3 "material.specularColor" defaultMaterial.specularColor,
       Uniform.floatU "material.shininess" defaultMaterial.shininess] ∧
    (∀ e ∈ stGold.materials, e.tag ≠ "missing") :=
  ⟨rfl, by decide⟩

/-- C3: the claim requires `DestroyGLTextures()` to free each held GPU
handle exactly once and clear the registry.  On a registry holding the
two handles 1 and 2 the source deletes nothing (`glDeleteTextures` is
never called), leaves both entries registered, and instead allocates
the fresh handles 3 and 4 into the entries. -/
theorem c3_destroyGLTextures_reallocates :
    (destroyGLTextures stTex).gl.deleted = [] ∧
    (destroyGLTextures stTex).textures.length = 2 ∧
    (destroyGLTextures stTex).textures.map TextureEntry.ID = [3, 4] ∧
    stTex.textures.map TextureEntry.ID = [1, 2] :=
  ⟨rfl, rfl, rfl, rfl⟩

/-- C4: the claim requires a successful-decode call on a full 16-entry
registry to fail with a capacity error and not register.  The source
has no capacity check: after sixteen successful loads a seventeenth
successful 3-channel load still returns `true` and appends a
seventeenth entry (the write to slot index 16, past the 16-entry slot
bank). -/
theorem c4_createGLTexture_no_capacity_error :
    (loadSeq tags16 initialState).textures.length = 16 ∧
    (createGLTexture (some 3) "t16" (loadSeq tags16 initialState)).1 = true ∧
    ((createGLTexture (some 3) "t16" (loadSeq tags16 initialState)).2).textures.length
      = 17 := by
  have hlen : (loadSeq tags16 initialState).textures.length = 16 :=
    (loadSeq_textures_length tags16).trans rfl
  refine ⟨hlen, rfl, ?_⟩
  rw [createGLTexture_snd_textures, List.length_append, hlen,
    List.length_singleton]

/-- C5: `SetTransformations` composes the model matrix as
`Translation * RotationX * RotationY * RotationZ * Scale` with the
degree arguments converted to radians, and pushes it as the `model`
uniform when the shader manager is present; composing with unit scale,
zero angles and zero translation yields the identity matrix, and
composing scale (2,3,4) with zero angles and translation (5,6,7) yields
a matrix with translation column (5,6,7) and diagonal scale factors
(2,3,4). -/
theorem c5_transform_composition :
    (∀ (s : Vec3) (x y z : ℚ) (p : Vec3),
        modelMatrix s x y z p =
          translationM p * rotationXM (radians x) * rotationYM (radians y) *
            rotationZM (radians z) * scaleM s) ∧
    (∀ (s : Vec3) (x y z : ℚ) (p : Vec3)
        (textures : List TextureEntry) (materials : List OBJECT_MATERIAL)
        (gl : GLState),
        setTransformations s x y z p
            { shaderPresent := true, textures := textures,
              materials := materials, gl := gl } =
          ({ shaderPresent := true, textures := textures,
             materials := materials, gl := gl },
           [Uniform.mat4 "model" (modelMatrix s x y z p)])) ∧
    modelMatrix (1, 1, 1) 0 0 0 (0, 0, 0) = 1 ∧
    (modelMatrix (2, 3, 4) 0 0 0 (5, 6, 7) 0 3 = 5 ∧
     modelMatrix (2, 3, 4) 0 0 0 (5, 6, 7) 1 3 = 6 ∧
     modelMatrix (2, 3, 4) 0 0 0 (5, 6, 7) 2 3 = 7) ∧
    (modelMatrix (2, 3, 4) 0 0 0 (5, 6, 7) 0 0 = 2 ∧
     modelMatrix (2, 3, 4) 0 0 0 (5, 6, 7) 1 1 = 3 ∧
     modelMatrix (2, 3, 4) 0 0 0 (5, 6, 7) 2 2 = 4) := by
  have hts : modelMatrix (2, 3, 4) 0 0 0 (5, 6, 7) =
      translationM (5, 6, 7) * scaleM (2, 3, 4) := by
    rw [modelMatrix, radians_zero, rotationXM_zero, rotationYM_zero,
      rotationZM_zero]
    simp
  refine ⟨fun s x y z p => rfl, fun s x y z p t m g => rfl, ?_, ?_, ?_⟩
  · rw [modelMatrix, radians_zero, rotationXM_zero, rotationYM_zero,
      rotationZM_zero, translationM_zero, scaleM_one]
    simp
  · refine ⟨?_, ?_, ?_⟩ <;> rw [hts] <;>
      simp [translationM, scaleM, Matrix.mul_apply, Fin.sum_univ_four,
        Matrix.vecHead, Matrix.vecTail]
  · refine ⟨?_, ?_, ?_⟩ <;> rw [hts] <;>
      simp [translationM, scaleM, Matrix.mul_apply, Fin.sum_univ_four,
        Matrix.vecHead, Matrix.vecTail]

/-- C6 (amended): for every sequence of at most 16 successful texture
loads, `FindTextureSlot(tag)` returns the zero-based load order of the
first-loaded entry with that tag, slots of distinct registered tags are
pairwise distinct and lie in [0,16), and the lookup returns -1 when no
registered tag matches.  (The bound 16 must be assumed: the source has
no capacity check, so a seventeenth load is assigned slot 16 — see the
counterexample.) -/
theorem c6_findTextureSlot_load_order (tags : List String)
    (h16 : tags.length ≤ 16) (tag : String) :
    (tag ∈ tags →
      findTextureSlot tag (loadSeq tags initialState) =
        ((tags.indexOf tag : Nat) : Int) ∧
      0 ≤ findTextureSlot tag (loadSeq tags initialState) ∧
      findTextureSlot tag (loadSeq tags initialState) < 16) ∧
    (tag ∉ tags → findTextureSlot tag (loadSeq tags initialState) = -1) ∧
    (∀ tag2, tag2 ∈ tags → tag ∈ tags → tag ≠ tag2 →
      findTextureSlot tag (loadSeq tags initialState) ≠
        findTextureSlot tag2 (loadSeq tags initialState)) := by
  refine ⟨?_, ?_, ?_⟩
  · intro hmem
    rw [findTextureSlot_loadSeq, if_pos hmem]
    refine ⟨rfl, by exact_mod_cast Nat.zero_le _, ?_⟩
    have hlt : tags.indexOf tag < tags.length :=
      List.indexOf_lt_length.mpr hmem
    exact_mod_cast lt_of_lt_of_le hlt h16
  · intro hmem
    rw [findTextureSlot_loadSeq, if_neg hmem]
  · intro tag2 h2 h1 hne
    rw [findTextureSlot_loadSeq, if_pos h1, findTextureSlot_loadSeq, if_pos h2]
    intro heq
    have hidx : tags.indexOf tag = tags.indexOf tag2 := by exact_mod_cast heq
    have e1 : tags.get ⟨tags.indexOf tag, List.indexOf_lt_length.mpr h1⟩ = tag :=
      List.indexOf_get _
    have e2 : tags.get ⟨tags.indexOf tag2, List.indexOf_lt_length.mpr h2⟩ = tag2 :=
      List.indexOf_get _
    apply hne
    rw [← e1, ← e2]
    exact congrArg tags.get (Fin.ext hidx)

/-- C6 witness: loading tags "apple" then "stem" and looking up "stem"
returns its load order 1, which is a valid slot in [0,16). -/
theorem c6_witness :
    findTextureSlot "stem" (loadSeq ["apple", "stem"] initialState) =
      (((["apple", "stem"].indexOf "stem" : Nat)) : Int) ∧
    0 ≤ findTextureSlot "stem" (loadSeq ["apple", "stem"] initialState) ∧
    findTextureSlot "stem" (loadSeq ["apple", "stem"] initialState) < 16 :=
  (c6_findTextureSlot_load_order ["apple", "stem"] (by decide) "stem").1
    (by decide)

/-- C6 counterexample: the claim as stated (all assigned slots within
[0,16) for every sequence of successful loads) fails — after seventeen
successful loads the tag of the seventeenth texture resolves to slot
16, outside [0,16). -/
theorem c6_counterexample :
    findTextureSlot "t16" (loadSeq tags17 initialState) = 16 ∧
    ¬ findTextureSlot "t16" (loadSeq tags17 initialState) < 16 := by
  have h : findTextureSlot "t16" (loadSeq tags17 initialState) =
      if "t16" ∈ tags17 then ((tags17.indexOf "t16" : Nat) : Int) else -1 :=
    findTextureSlot_loadSeq tags17 "t16"
  have hmem : "t16" ∈ tags17 := by decide
  have hidx : tags17.indexOf "t16" = 16 := by decide
  rw [h, if_pos hmem, hidx]
  exact ⟨rfl, by decide⟩

/-- C7: with a live shader manager, `SetShaderTexture(tag)` pushes the
texture-enable flag as true (int uniform 1) and then pushes the slot
resolved by `FindTextureSlot` as the sampler uniform; when no
registered entry's tag matches, the resolved slot is the sentinel -1. -/
theorem c7_setShaderTexture_pushes (st : SceneState) (tag : String)
    (h : st.shaderPresent = true) :
    (setShaderTexture tag st).2 =
      [Uniform.intU "bUseTexture" 1,
       Uniform.sampler2D "objectTexture" (findTextureSlot tag st)] ∧
    ((∀ e ∈ st.textures, e.tag ≠ tag) → findTextureSlot tag st = -1) := by
  constructor
  · simp [setShaderTexture, h]
  · intro hna
    have hnm : ¬ tag ∈ st.textures.map TextureEntry.tag := by
      simp only [List.mem_map, not_exists, not_and]
      intro e he heq
      exact hna e he heq
    rw [findTextureSlot, findTextureSlotLoop_eq tag _ 0, if_neg hnm]

/-- C7 witness: on a registry holding tags "apple" and "stem", looking
up the unregistered tag "missing" pushes the enable flag and the
sentinel slot -1. -/
theorem c7_witness :
    (setShaderTexture "missing" stTex).2 =
      [Uniform.intU "bUseTexture" 1,
       Uniform.sampler2D "objectTexture" (findTextureSlot "missing" stTex)] ∧
    findTextureSlot "missing" stTex = -1 :=
  ⟨(c7_setShaderTexture_pushes stTex "missing" rfl).1,
   (c7_setShaderTexture_pushes stTex "missing" rfl).2 (by decide)⟩

/-- C8: material lookup is first-match-wins over insertion order: when
the registry is any list whose first entry with the given tag is `m`
(arbitrary entries with other tags before it, arbitrary entries —
including duplicates of the tag — after it), `FindMaterial` copies
exactly `m`'s values into the output parameter. -/
theorem c8_findMaterial_first_match (pre : List OBJECT_MATERIAL)
    (m : OBJECT_MATERIAL) (rest : List OBJECT_MATERIAL) (tag : String)
    (material : OBJECT_MATERIAL)
    (hpre : ∀ e ∈ pre, e.tag ≠ tag) (hm : m.tag = tag) :
    findMaterial tag (pre ++ m :: rest) material =
      (true, copyMaterialFields material m) := by
  have hne : ¬ (pre ++ m :: rest).length = 0 := by simp
  rw [findMaterial, if_neg hne,
    findMaterialLoop_first tag pre m rest material hpre hm]

/-- C8 witness: defining the repository's wood material and then a
second material with the same tag "wood" but shininess 99, looking up
"wood" returns the first-defined entry's values — shininess 0.3, not
99. -/
theorem c8_witness :
    findMaterial "wood" [woodMaterial, woodMaterialDup] defaultMaterial =
      (true, copyMaterialFields defaultMaterial woodMaterial) ∧
    (copyMaterialFields defaultMaterial woodMaterial).shininess = 0.3 ∧
    woodMaterialDup.shininess = 99 ∧ woodMaterialDup.tag = "wood" :=
  ⟨c8_findMaterial_first_match [] woodMaterial [woodMaterialDup] "wood"
      defaultMaterial (by simp) rfl,
   rfl, rfl, rfl⟩

/-- C9: `RenderScene()` leaves the member state (both registries, the
shader flag, the GL allocator) unchanged, so a second consecutive call
runs from the same state and issues the identical ordered sequence of
(material tag, texture tag, mesh kind, resulting model matrix) draw
events.  Every dispatcher call inside each draw block returns the state
it was given (none of them writes a member), so both conjuncts hold by
reduction. -/
theorem c9_renderScene_deterministic (st : SceneState) :
    (renderScene st).1 = st ∧
    (renderScene ((renderScene st).1)).2 = (renderScene st).2 :=
  ⟨rfl, rfl⟩

/-- C10: when the shader-manager pointer is null, `SetTransformations`,
`SetShaderColor`, `SetShaderTexture` and `SetTextureUVScale` push
nothing and leave the state unchanged; the guard is absent on the
`SetShaderMaterial` push path, which still pushes its five uniforms
(an unguarded dereference in the source) on a matching tag. -/
theorem c10_null_shader_guard (st : SceneState)
    (h : st.shaderPresent = false) :
    (∀ (s : Vec3) (x y z : ℚ) (p : Vec3),
        setTransformations s x y z p st = (st, [])) ∧
    (∀ r g b a : ℚ, setShaderColor r g b a st = (st, [])) ∧
    (∀ tag : String, setShaderTexture tag st = (st, [])) ∧
    (∀ u v : ℚ, setTextureUVScale u v st = (st, [])) ∧
    (setShaderMaterial "gold" { st with materials := [goldMaterial] }).2 ≠ [] := by
  refine ⟨?_, ?_, ?_, ?_, ?_⟩
  · intro s x y z p
    simp [setTransformations, h]
  · intro r g b a
    simp [setShaderColor, h]
  · intro tag
    simp [setShaderTexture, h]
  · intro u v
    simp [setTextureUVScale, h]
  · have hpush : (setShaderMaterial "gold"
        { st with materials := [goldMaterial] }).2 =
      [Uniform.vec3 "material.ambientColor" goldMaterial.ambientColor,
       Uniform.floatU "material.ambientStrength" goldMaterial.ambientStrength,
       Uniform.vec3 "material.diffuseColor" goldMaterial.diffuseColor,
       Uniform.vec3 "material.specularColor" goldMaterial.specularColor,
       Uniform.floatU "material.shininess" goldMaterial.shininess] := rfl
    rw [hpush]
    simp

/-- C10 witness: on the concrete null-shader state the four guarded
setters are no-ops, while `SetShaderMaterial` still pushes. -/
theorem c10_witness :
    setTransformations (1, 1, 1) 0 0 0 (0, 0, 0) stNoShader = (stNoShader, []) ∧
    setShaderColor 1 1 1 1 stNoShader = (stNoShader, []) ∧
    setShaderTexture "table" stNoShader = (stNoShader, []) ∧
    setTextureUVScale 1 1 stNoShader = (stNoShader, []) ∧
    (setShaderMaterial "gold" { stNoShader with materials := [goldMaterial] }).2 ≠ [] :=
  ⟨(c10_null_shader_guard stNoShader rfl).1 (1, 1, 1) 0 0 0 (0, 0, 0),
   (c10_null_shader_guard stNoShader rfl).2.1 1 1 1 1,
   (c10_null_shader_guard stNoShader rfl).2.2.1 "table",
   (c10_null_shader_guard stNoShader rfl).2.2.2.1 1 1,
   (c10_null_shader_guard stNoShader rfl).2.2.2.2⟩

end SceneMgr
